import Mathlib

/-!
Verification of the credit-ledger / report-registry / bounty core of the
inspectly repository.

The development is a shallow embedding of the server core:

* src/shared/schema.ts     — the four tables (reports, credit_transactions,
  bounties, downloads) become Lean structures; the CREDIT_VALUES constants
  become Lean constants.  Timestamp columns (createdAt, updatedAt,
  fulfilledAt, inspectionDate) and the AI-extracted display fields are not
  modelled: no claim depends on them.
* src/server/storage.ts    — DatabaseStorage methods become pure functions
  on a DBState record holding the four tables as lists (newest first, which
  is the ordering the ORDER BY createdAt DESC queries return) together with
  the serial id counters.  The SQL ILIKE percent-pattern containment test is
  modelled as case-insensitive substring containment, faithful for arguments
  free of the percent and underscore wildcard characters (every address in
  the claims is wildcard-free).
* src/server/routes.ts     — the route handlers become state transformers
  returning the new DBState together with an inductive result mirroring the
  HTTP responses.  The upload handler takes one extra boolean, ledgerFault:
  when true, the createCreditTransaction call that records the +UPLOAD_REWARD
  entry raises a storage error, which the surrounding try/catch turns into a
  500 response; the handler performs no rollback, exactly as in the source.
  The sha256 digest of the uploaded bytes is passed in as the fileHash
  argument (byte-identical content means an identical digest).
-/

namespace Inspectly

/-! ## Constants (src/shared/schema.ts, CREDIT_VALUES) -/

def SIGNUP_BONUS : Int := 50
def UPLOAD_REWARD : Int := 10
def DOWNLOAD_COST : Int := 5
def EARLY_UPLOAD_BONUS : Int := 5
def MIN_BOUNTY_STAKE : Int := 5

/-! ## Data model (src/shared/schema.ts) -/

/-- A row of the reports table (display-only AI fields and timestamps
omitted). -/
structure Report where
  id : Nat
  userId : String
  propertyAddress : String
  fileHash : String
  fileName : String
  fileSize : Nat
  downloadCount : Nat
  isPublic : Bool
deriving DecidableEq

/-- A row of the credit_transactions table. -/
structure CreditTransaction where
  id : Nat
  userId : String
  amount : Int
  type : String
  description : String
  reportId : Option Nat
  bountyId : Option Nat
deriving DecidableEq

/-- A row of the bounties table (fulfilledAt timestamp omitted). -/
structure Bounty where
  id : Nat
  userId : String
  propertyAddress : String
  stakedCredits : Int
  status : String
  fulfilledByUserId : Option String
  fulfilledReportId : Option Nat
deriving DecidableEq

/-- A row of the downloads table. -/
structure Download where
  id : Nat
  userId : String
  reportId : Nat
  creditSpent : Int
deriving DecidableEq

/-- The database state: the four tables (lists kept newest first, matching
the ORDER BY createdAt DESC read queries) and the serial id counters. -/
structure DBState where
  reports : List Report
  creditTransactions : List CreditTransaction
  bounties : List Bounty
  downloads : List Download
  nextReportId : Nat
  nextTxId : Nat
  nextBountyId : Nat
  nextDownloadId : Nat
deriving DecidableEq

/-- The empty database (serial counters start at 1). -/
def initialState : DBState :=
  { reports := [], creditTransactions := [], bounties := [], downloads := [],
    nextReportId := 1, nextTxId := 1, nextBountyId := 1, nextDownloadId := 1 }

/-! ## String helpers: ILIKE containment and the filename transformation -/

/-- Whether the pattern is an initial segment of the character list. -/
def charsBeginWith : List Char → List Char → Bool
  | _, [] => true
  | [], _ :: _ => false
  | a :: as, b :: bs => (a == b) && charsBeginWith as bs

/-- Whether the pattern occurs contiguously inside the character list. -/
def charsContain : List Char → List Char → Bool
  | [], pat => charsBeginWith [] pat
  | a :: t, pat => charsBeginWith (a :: t) pat || charsContain t pat

/-- The SQL test col ILIKE percent-pat-percent, modelled for wildcard-free
pat as case-insensitive substring containment. -/
def ilike (col pat : String) : Bool :=
  charsContain (col.toList.map Char.toLower) (pat.toList.map Char.toLower)

/-- Remove the first contiguous occurrence of pat from the list, as the
JavaScript String.replace with a string argument does. -/
def removeFirstOcc : List Char → List Char → List Char
  | [], _ => []
  | a :: t, pat =>
    if charsBeginWith (a :: t) pat then (a :: t).drop pat.length
    else a :: removeFirstOcc t pat

/-- The property address the upload handler derives from the filename:
originalname.replace of ".pdf" (first occurrence), then every underscore
replaced by a space, with "Unknown Address" as the fallback when the result
is the empty string (src/server/routes.ts line 208). -/
def deriveAddress (fileName : String) : String :=
  let cs := (removeFirstOcc fileName.toList ".pdf".toList).map
    (fun c => if c == '_' then ' ' else c)
  if cs.isEmpty then "Unknown Address" else String.mk cs

/-! ## Storage layer (src/server/storage.ts, class DatabaseStorage) -/

/-- DatabaseStorage.getReport: first row with the given id. -/
def getReport (s : DBState) (id : Nat) : Option Report :=
  s.reports.find? (fun r => r.id == id)

/-- DatabaseStorage.getReportByHash: first row with the given fileHash. -/
def getReportByHash (s : DBState) (hash : String) : Option Report :=
  s.reports.find? (fun r => r.fileHash == hash)

/-- DatabaseStorage.getCreditTransactions: all rows of the user, newest
first. -/
def getCreditTransactions (s : DBState) (userId : String) : List CreditTransaction :=
  s.creditTransactions.filter (fun t => t.userId == userId)

/-- DatabaseStorage.getCreditBalance: COALESCE(SUM(amount), 0) over the
rows of the user. -/
def getCreditBalance (s : DBState) (userId : String) : Int :=
  ((getCreditTransactions s userId).map (fun t => t.amount)).sum

/-- The earned and spent totals returned by getCreditStats. -/
structure CreditStats where
  earned : Int
  spent : Int
deriving DecidableEq

/-- One iteration of the getCreditStats loop: positive amounts accumulate
into earned, the rest contribute their absolute value to spent. -/
def statsStep (acc : CreditStats) (t : CreditTransaction) : CreditStats :=
  if t.amount > 0 then { acc with earned := acc.earned + t.amount }
  else { acc with spent := acc.spent + |t.amount| }

/-- DatabaseStorage.getCreditStats: fold the loop over the user rows. -/
def getCreditStats (s : DBState) (userId : String) : CreditStats :=
  (getCreditTransactions s userId).foldl statsStep { earned := 0, spent := 0 }

/-- The insert shape of a credit transaction (id assigned by the store). -/
structure TxInput where
  userId : String
  amount : Int
  type : String
  description : String
  reportId : Option Nat
  bountyId : Option Nat
deriving DecidableEq

/-- DatabaseStorage.createCreditTransaction: append one immutable row with
the next serial id (list kept newest first). -/
def insertTx (s : DBState) (t : TxInput) : DBState :=
  { s with
    creditTransactions :=
      { id := s.nextTxId, userId := t.userId, amount := t.amount,
        type := t.type, description := t.description,
        reportId := t.reportId, bountyId := t.bountyId } :: s.creditTransactions,
    nextTxId := s.nextTxId + 1 }

/-- DatabaseStorage.getBounty: first row with the given id. -/
def getBounty (s : DBState) (id : Nat) : Option Bounty :=
  s.bounties.find? (fun b => b.id == id)

/-- DatabaseStorage.getBountyByAddress: first open bounty whose
propertyAddress ILIKE-contains the given address. -/
def getBountyByAddress (s : DBState) (address : String) : Option Bounty :=
  s.bounties.find? (fun b => b.status == "open" && ilike b.propertyAddress address)

/-- DatabaseStorage.fulfillBounty: unconditionally set status, fulfilledBy
and fulfilledReportId on every row with the given id — the source performs
no status check. -/
def fulfillBounty (s : DBState) (id : Nat) (fulfilledByUserId : String) (reportId : Nat) :
    DBState :=
  { s with bounties := s.bounties.map (fun b =>
      if b.id == id then
        { b with status := "fulfilled", fulfilledByUserId := some fulfilledByUserId,
                 fulfilledReportId := some reportId }
      else b) }

/-- DatabaseStorage.cancelBounty: set status cancelled on every row with the
given id. -/
def cancelBounty (s : DBState) (id : Nat) : DBState :=
  { s with bounties := s.bounties.map (fun b =>
      if b.id == id then { b with status := "cancelled" } else b) }

/-- DatabaseStorage.hasUserDownloaded: whether a row for the pair exists. -/
def hasUserDownloaded (s : DBState) (userId : String) (reportId : Nat) : Bool :=
  s.downloads.any (fun d => d.userId == userId && d.reportId == reportId)

/-- DatabaseStorage.incrementDownloadCount. -/
def incrementDownloadCount (s : DBState) (id : Nat) : DBState :=
  { s with reports := s.reports.map (fun r =>
      if r.id == id then { r with downloadCount := r.downloadCount + 1 } else r) }

/-! ## Route handlers (src/server/routes.ts) -/

/-- Outcome of POST /api/reports/upload: the 400 duplicate response, the
500 response produced when the reward insert raises a storage error, or the
200 response carrying the created report id. -/
inductive UploadResult where
  | duplicate
  | serverError
  | ok (reportId : Nat)
deriving DecidableEq

/-- The report row the upload handler inserts (routes.ts lines 206-218). -/
def mkReport (s : DBState) (userId fileName fileHash : String) (fileSize : Nat) : Report :=
  { id := s.nextReportId, userId := userId,
    propertyAddress := deriveAddress fileName,
    fileHash := fileHash, fileName := fileName, fileSize := fileSize,
    downloadCount := 0, isPublic := true }

/-- The +UPLOAD_REWARD ledger entry of the upload handler (lines 221-227). -/
def uploadRewardTx (userId : String) (report : Report) : TxInput :=
  { userId := userId, amount := UPLOAD_REWARD, type := "upload",
    description := "Uploaded report: " ++ report.propertyAddress,
    reportId := some report.id, bountyId := none }

/-- The bounty_earned ledger entry of the upload handler (lines 236-243). -/
def bountyEarnedTx (userId : String) (mb : Bounty) (report : Report) : TxInput :=
  { userId := userId, amount := mb.stakedCredits, type := "bounty_earned",
    description := "Bounty fulfilled for: " ++ report.propertyAddress,
    reportId := some report.id, bountyId := some mb.id }

/-- Upload steps 229-244: look the derived address up among open bounties;
when a bounty of another user matches, mark it fulfilled and credit the
uploader the staked amount. -/
def uploadBountyCheck (s : DBState) (userId : String) (report : Report) : DBState :=
  match getBountyByAddress s report.propertyAddress with
  | some mb =>
    if mb.userId ≠ userId then
      insertTx (fulfillBounty s mb.id userId report.id) (bountyEarnedTx userId mb report)
    else s
  | none => s

/-- POST /api/reports/upload (routes.ts lines 184-255).  The fileHash
argument is the sha256 digest of the uploaded bytes.  When ledgerFault is
true the createCreditTransaction recording the reward raises a storage
error: the catch block answers 500 and the already-inserted report row is
kept — the source wraps nothing in a transaction. -/
def uploadReport (s : DBState) (userId fileName fileHash : String) (fileSize : Nat)
    (ledgerFault : Bool) : DBState × UploadResult :=
  match getReportByHash s fileHash with
  | some _ => (s, UploadResult.duplicate)
  | none =>
    let report := mkReport s userId fileName fileHash fileSize
    let s1 : DBState :=
      { s with reports := report :: s.reports, nextReportId := s.nextReportId + 1 }
    if ledgerFault then (s1, UploadResult.serverError)
    else
      let s2 := insertTx s1 (uploadRewardTx userId report)
      (uploadBountyCheck s2 userId report, UploadResult.ok report.id)

/-- Outcome of POST /api/reports/:id/download. -/
inductive DownloadResult where
  | notFound
  | ownsReport
  | alreadyDownloaded
  | insufficientCredits
  | ok
deriving DecidableEq

/-- The -DOWNLOAD_COST ledger entry of the download handler (lines 340-346). -/
def downloadDebitTx (userId : String) (report : Report) (reportId : Nat) : TxInput :=
  { userId := userId, amount := -DOWNLOAD_COST, type := "download",
    description := "Downloaded report: " ++ report.propertyAddress,
    reportId := some reportId, bountyId := none }

/-- POST /api/reports/:id/download (routes.ts lines 305-356). -/
def downloadReport (s : DBState) (userId : String) (reportId : Nat) :
    DBState × DownloadResult :=
  match getReport s reportId with
  | none => (s, DownloadResult.notFound)
  | some report =>
    if report.userId == userId then (s, DownloadResult.ownsReport)
    else if hasUserDownloaded s userId reportId then (s, DownloadResult.alreadyDownloaded)
    else if getCreditBalance s userId < DOWNLOAD_COST then
      (s, DownloadResult.insufficientCredits)
    else
      let s1 : DBState :=
        { s with
          downloads := { id := s.nextDownloadId, userId := userId, reportId := reportId,
                         creditSpent := DOWNLOAD_COST } :: s.downloads,
          nextDownloadId := s.nextDownloadId + 1 }
      let s2 := insertTx s1 (downloadDebitTx userId report reportId)
      (incrementDownloadCount s2 reportId, DownloadResult.ok)

/-- Outcome of POST /api/bounties. -/
inductive CreateBountyResult where
  | missingAddress
  | insufficientCredits
  | ok (bountyId : Nat)
deriving DecidableEq

/-- The stake the handler actually uses (routes.ts line 433): the JavaScript
expression Math.max(MIN_BOUNTY_STAKE, stakedCredits OR MIN_BOUNTY_STAKE),
where the OR treats an absent or zero request as MIN_BOUNTY_STAKE. -/
def clampStake (stakedCredits : Option Int) : Int :=
  max MIN_BOUNTY_STAKE
    (match stakedCredits with
     | none => MIN_BOUNTY_STAKE
     | some v => if v = 0 then MIN_BOUNTY_STAKE else v)

/-- The -stake ledger entry of the create-bounty handler (lines 449-455). -/
def bountyStakeTx (userId : String) (stakeAmount : Int) (address : String)
    (bountyId : Nat) : TxInput :=
  { userId := userId, amount := -stakeAmount, type := "bounty_stake",
    description := "Staked for bounty: " ++ address,
    reportId := none, bountyId := some bountyId }

/-- POST /api/bounties (routes.ts lines 424-462).  A missing propertyAddress
or the empty string is falsy in the source and is rejected. -/
def createBountyRoute (s : DBState) (userId : String) (propertyAddress : Option String)
    (stakedCredits : Option Int) : DBState × CreateBountyResult :=
  match propertyAddress with
  | none => (s, CreateBountyResult.missingAddress)
  | some addr =>
    if addr = "" then (s, CreateBountyResult.missingAddress)
    else
      let stakeAmount := clampStake stakedCredits
      if getCreditBalance s userId < stakeAmount then
        (s, CreateBountyResult.insufficientCredits)
      else
        let b : Bounty :=
          { id := s.nextBountyId, userId := userId, propertyAddress := addr,
            stakedCredits := stakeAmount, status := "open",
            fulfilledByUserId := none, fulfilledReportId := none }
        let s1 : DBState :=
          { s with bounties := b :: s.bounties, nextBountyId := s.nextBountyId + 1 }
        (insertTx s1 (bountyStakeTx userId stakeAmount addr b.id),
         CreateBountyResult.ok b.id)

/-- Outcome of DELETE /api/bounties/:id. -/
inductive CancelBountyResult where
  | notFound
  | notAuthorized
  | notOpen
  | ok
deriving DecidableEq

/-- The refund ledger entry of the cancel handler (lines 486-492). -/
def bountyRefundTx (userId : String) (bounty : Bounty) : TxInput :=
  { userId := userId, amount := bounty.stakedCredits, type := "bounty_stake",
    description := "Refund for cancelled bounty: " ++ bounty.propertyAddress,
    reportId := none, bountyId := some bounty.id }

/-- DELETE /api/bounties/:id (routes.ts lines 464-499). -/
def cancelBountyRoute (s : DBState) (userId : String) (bountyId : Nat) :
    DBState × CancelBountyResult :=
  match getBounty s bountyId with
  | none => (s, CancelBountyResult.notFound)
  | some bounty =>
    if bounty.userId ≠ userId then (s, CancelBountyResult.notAuthorized)
    else if bounty.status ≠ "open" then (s, CancelBountyResult.notOpen)
    else
      (insertTx (cancelBounty s bountyId) (bountyRefundTx userId bounty),
       CancelBountyResult.ok)

/-- Outcome of DELETE /api/reports/:id. -/
inductive DeleteReportResult where
  | notFound
  | notAuthorized
  | ok
deriving DecidableEq

/-- DELETE /api/reports/:id (routes.ts lines 359-379). -/
def deleteReportRoute (s : DBState) (userId : String) (reportId : Nat) :
    DBState × DeleteReportResult :=
  match getReport s reportId with
  | none => (s, DeleteReportResult.notFound)
  | some report =>
    if report.userId ≠ userId then (s, DeleteReportResult.notAuthorized)
    else ({ s with reports := s.reports.filter (fun r => r.id ≠ reportId) },
          DeleteReportResult.ok)

/-- POST /api/signup-bonus (routes.ts lines 502-525): credit SIGNUP_BONUS
once, to a user with no prior transactions.  Returns true when credited. -/
def signupBonusRoute (s : DBState) (userId : String) : DBState × Bool :=
  if (getCreditTransactions s userId).length > 0 then (s, false)
  else
    (insertTx s
      { userId := userId, amount := SIGNUP_BONUS, type := "signup_bonus",
        description := "Welcome bonus for joining InspectSwap!",
        reportId := none, bountyId := none },
     true)

/-! ## The request-level transition system -/

/-- One authenticated HTTP request against the state-mutating routes. -/
inductive Action where
  | upload (userId fileName fileHash : String) (fileSize : Nat) (ledgerFault : Bool)
  | download (userId : String) (reportId : Nat)
  | createBounty (userId : String) (propertyAddress : Option String)
      (stakedCredits : Option Int)
  | cancelBounty (userId : String) (bountyId : Nat)
  | deleteReport (userId : String) (reportId : Nat)
  | signupBonus (userId : String)

/-- The state after serving one request. -/
def step (s : DBState) : Action → DBState
  | Action.upload u fn fh fs flt => (uploadReport s u fn fh fs flt).1
  | Action.download u rid => (downloadReport s u rid).1
  | Action.createBounty u addr stake => (createBountyRoute s u addr stake).1
  | Action.cancelBounty u bid => (cancelBountyRoute s u bid).1
  | Action.deleteReport u rid => (deleteReportRoute s u rid).1
  | Action.signupBonus u => (signupBonusRoute s u).1

/-- The states the server can reach from the empty database by serving
requests sequentially. -/
inductive Reachable : DBState → Prop
  | init : Reachable initialState
  | next (s : DBState) (a : Action) : Reachable s → Reachable (step s a)

/-! ## Helper lemmas -/

/-- Appending a ledger row shifts the balance of its user by its amount and
leaves every other balance unchanged. -/
theorem getCreditBalance_insertTx (s : DBState) (t : TxInput) (u : String) :
    getCreditBalance (insertTx s t) u
      = (if t.userId = u then t.amount else 0) + getCreditBalance s u := by
  unfold getCreditBalance getCreditTransactions insertTx
  by_cases h : t.userId = u
  · simp [h, List.filter_cons]
  · simp [h, List.filter_cons]

/-- The getCreditStats loop, folded over any row list from any accumulator:
earned minus spent moves by the sum of the amounts. -/
theorem statsStep_foldl (l : List CreditTransaction) (acc : CreditStats) :
    (l.foldl statsStep acc).earned - (l.foldl statsStep acc).spent
      = acc.earned - acc.spent + (l.map (fun t => t.amount)).sum := by
  induction l generalizing acc with
  | nil => simp
  | cons t l ih =>
    rw [List.foldl_cons, ih]
    unfold statsStep
    by_cases h : t.amount > 0
    · simp only [if_pos h, List.map_cons, List.sum_cons]
      omega
    · simp only [if_neg h, List.map_cons, List.sum_cons,
        abs_of_nonpos (le_of_not_lt h)]
      omega

/-- The bounty-fulfillment step of the upload handler never touches the
reports table. -/
theorem uploadBountyCheck_reports (s : DBState) (u : String) (r : Report) :
    (uploadBountyCheck s u r).reports = s.reports := by
  unfold uploadBountyCheck
  split
  · split <;> rfl
  · rfl

/-- The bounty-fulfillment step of the upload handler never touches the
downloads table. -/
theorem uploadBountyCheck_downloads (s : DBState) (u : String) (r : Report) :
    (uploadBountyCheck s u r).downloads = s.downloads := by
  unfold uploadBountyCheck
  split
  · split <;> rfl
  · rfl

/-- The upload handler never touches the downloads table. -/
theorem uploadReport_downloads (s : DBState) (u fn fh : String) (fs : Nat) (flt : Bool) :
    (uploadReport s u fn fh fs flt).1.downloads = s.downloads := by
  unfold uploadReport
  split
  · rfl
  · dsimp only
    split
    · rfl
    · exact uploadBountyCheck_downloads ..

/-- The create-bounty handler never touches the downloads table. -/
theorem createBountyRoute_downloads (s : DBState) (u : String) (addr : Option String)
    (req : Option Int) :
    (createBountyRoute s u addr req).1.downloads = s.downloads := by
  unfold createBountyRoute
  split
  · rfl
  · split
    · rfl
    · dsimp only
      split <;> rfl

/-- The cancel-bounty handler never touches the downloads table. -/
theorem cancelBountyRoute_downloads (s : DBState) (u : String) (bid : Nat) :
    (cancelBountyRoute s u bid).1.downloads = s.downloads := by
  unfold cancelBountyRoute
  split
  · rfl
  · split
    · rfl
    · split <;> rfl

/-- The delete-report handler never touches the downloads table. -/
theorem deleteReportRoute_downloads (s : DBState) (u : String) (rid : Nat) :
    (deleteReportRoute s u rid).1.downloads = s.downloads := by
  unfold deleteReportRoute
  split
  · rfl
  · split <;> rfl

/-- The signup-bonus handler never touches the downloads table. -/
theorem signupBonusRoute_downloads (s : DBState) (u : String) :
    (signupBonusRoute s u).1.downloads = s.downloads := by
  unfold signupBonusRoute
  split <;> rfl

/-- The ledger rows after an insert: the new row in front of the old rows. -/
theorem insertTx_creditTransactions (s : DBState) (t : TxInput) :
    (insertTx s t).creditTransactions =
      { id := s.nextTxId, userId := t.userId, amount := t.amount, type := t.type,
        description := t.description, reportId := t.reportId, bountyId := t.bountyId }
        :: s.creditTransactions := rfl

/-- Fulfilling a bounty does not touch the ledger. -/
theorem fulfillBounty_creditTransactions (s : DBState) (id : Nat) (fb : String)
    (rid : Nat) :
    (fulfillBounty s id fb rid).creditTransactions = s.creditTransactions := rfl

/-- Cancelling a bounty does not touch the ledger. -/
theorem cancelBounty_creditTransactions (s : DBState) (id : Nat) :
    (cancelBounty s id).creditTransactions = s.creditTransactions := rfl

/-- Inserting a ledger row does not touch the bounties table. -/
theorem insertTx_bounties (s : DBState) (t : TxInput) :
    (insertTx s t).bounties = s.bounties := rfl

/-- Prepending a ledger row that is not a bounty_earned row for the given
bounty id adds no such row: any such row among the new rows was already
present. -/
theorem no_new_earned_cons (row : CreditTransaction) (l : List CreditTransaction)
    (bid : Nat) (hrow : ¬(row.type = "bounty_earned" ∧ row.bountyId = some bid)) :
    ∀ tx ∈ row :: l, tx.type = "bounty_earned" → tx.bountyId = some bid → tx ∈ l := by
  intro tx htx h1 h2
  rcases List.mem_cons.mp htx with rfl | h
  · exact absurd ⟨h1, h2⟩ hrow
  · exact h

/-! ## Claims -/

/-- C2.  Balance identity: in every database state and for every user,
getCreditBalance equals the sum of the amounts of the user's ledger rows,
getCreditBalance equals getCreditStats.earned minus getCreditStats.spent,
and a user with no rows has balance 0. -/
theorem C2_balance_identity (s : DBState) (u : String) :
    getCreditBalance s u = ((getCreditTransactions s u).map (fun t => t.amount)).sum
    ∧ getCreditBalance s u = (getCreditStats s u).earned - (getCreditStats s u).spent
    ∧ (getCreditTransactions s u = [] → getCreditBalance s u = 0) := by
  refine ⟨rfl, ?_, ?_⟩
  · unfold getCreditStats getCreditBalance
    rw [statsStep_foldl]
    simp
  · intro h
    unfold getCreditBalance
    rw [h]
    simp

/-- C2 witness: the identity instantiated at the empty database, where the
user has no rows and balance 0. -/
theorem C2_balance_identity_witness :
    getCreditTransactions initialState "alice" = []
    ∧ getCreditBalance initialState "alice" = 0 :=
  ⟨by decide, (C2_balance_identity initialState "alice").2.2 (by decide)⟩

/-- C6.  A download request by a non-owner with no prior download and a
balance strictly below DOWNLOAD_COST answers insufficient credits and
returns the state completely unchanged: no download row, no ledger row, no
balance change, no download-count change. -/
theorem C6_insufficient_credits_atomic (s : DBState) (u : String) (rid : Nat) (r : Report)
    (hr : getReport s rid = some r) (hown : r.userId ≠ u)
    (hdl : hasUserDownloaded s u rid = false)
    (hbal : getCreditBalance s u < DOWNLOAD_COST) :
    downloadReport s u rid = (s, DownloadResult.insufficientCredits) := by
  unfold downloadReport
  rw [hr]
  simp [hown, hdl, hbal]

/-- C6 witness: a report owned by another user and a requester holding 4
credits, below the cost of 5. -/
theorem C6_insufficient_credits_atomic_witness :
    downloadReport
      { reports := [{ id := 1, userId := "owner", propertyAddress := "1 A St",
                      fileHash := "h6", fileName := "1_A_St.pdf", fileSize := 10,
                      downloadCount := 0, isPublic := true }],
        creditTransactions := [{ id := 1, userId := "dave", amount := 4,
                                 type := "signup_bonus", description := "w",
                                 reportId := none, bountyId := none }],
        bounties := [], downloads := [],
        nextReportId := 2, nextTxId := 2, nextBountyId := 1, nextDownloadId := 1 }
      "dave" 1
    = ({ reports := [{ id := 1, userId := "owner", propertyAddress := "1 A St",
                       fileHash := "h6", fileName := "1_A_St.pdf", fileSize := 10,
                       downloadCount := 0, isPublic := true }],
         creditTransactions := [{ id := 1, userId := "dave", amount := 4,
                                  type := "signup_bonus", description := "w",
                                  reportId := none, bountyId := none }],
         bounties := [], downloads := [],
         nextReportId := 2, nextTxId := 2, nextBountyId := 1, nextDownloadId := 1 },
       DownloadResult.insufficientCredits) :=
  C6_insufficient_credits_atomic _ "dave" 1
    { id := 1, userId := "owner", propertyAddress := "1 A St",
      fileHash := "h6", fileName := "1_A_St.pdf", fileSize := 10,
      downloadCount := 0, isPublic := true }
    (by decide) (by decide) (by decide) (by decide)

/-- The upload of the C1 scenario: a fresh file uploaded while the reward
insert raises a storage error. -/
def orphanUpload : DBState × UploadResult :=
  uploadReport initialState "alice" "10_Oak_Ave.pdf" "deadbeef" 100 true

/-- C1.  Evaluation of the code at the failing input of the claim: when the
+UPLOAD_REWARD ledger insert fails with a storage error right after the
report row was created, the handler answers 500 but the reachable resulting
state keeps a report row that has no upload-reward ledger row — nothing is
rolled back, refuting both-or-neither atomicity. -/
theorem C1_reward_failure_keeps_orphan_report :
    Reachable orphanUpload.1
    ∧ orphanUpload.2 = UploadResult.serverError
    ∧ ∃ r ∈ orphanUpload.1.reports,
        ∀ tx ∈ orphanUpload.1.creditTransactions,
          ¬(tx.type = "upload" ∧ tx.reportId = some r.id) := by
  refine ⟨?_, by decide⟩
  exact Reachable.next initialState
    (Action.upload "alice" "10_Oak_Ave.pdf" "deadbeef" 100 true) Reachable.init

/-- C10.  The property address of every created report is derived from the
uploaded filename alone: the first occurrence of ".pdf" is removed, every
underscore becomes a space, and an empty result falls back to
"Unknown Address"; the bounty lookup runs against this derived string, so a
non-matching derived address leaves the bounties table untouched.  Concrete
evaluations witness each clause of the transformation. -/
theorem C10_address_derived_from_filename :
    (∀ (s : DBState) (u fn fh : String) (fs : Nat),
        getReportByHash s fh = none →
        mkReport s u fn fh fs ∈ (uploadReport s u fn fh fs false).1.reports
        ∧ (mkReport s u fn fh fs).propertyAddress = deriveAddress fn)
    ∧ (∀ (s : DBState) (u fn fh : String) (fs : Nat),
        getReportByHash s fh = none →
        getBountyByAddress s (deriveAddress fn) = none →
        (uploadReport s u fn fh fs false).1.bounties = s.bounties)
    ∧ deriveAddress "123_Main_St_Apt_2.pdf" = "123 Main St Apt 2"
    ∧ deriveAddress "Report.pdf_v2.pdf" = "Report v2.pdf"
    ∧ deriveAddress ".pdf" = "Unknown Address"
    ∧ deriveAddress "" = "Unknown Address" := by
  refine ⟨?_, ?_, by decide, by decide, by decide, by decide⟩
  · intro s u fn fh fs h0
    refine ⟨?_, rfl⟩
    unfold uploadReport
    rw [h0]
    rw [if_neg (show ¬(false = true) by decide)]
    dsimp only
    rw [uploadBountyCheck_reports]
    exact List.mem_cons_self _ _
  · intro s u fn fh fs h0 hnb
    unfold uploadReport
    rw [h0]
    rw [if_neg (show ¬(false = true) by decide)]
    dsimp only
    unfold uploadBountyCheck
    have hnb2 : getBountyByAddress
        (insertTx
          { reports := mkReport s u fn fh fs :: s.reports,
            creditTransactions := s.creditTransactions,
            bounties := s.bounties, downloads := s.downloads,
            nextReportId := s.nextReportId + 1, nextTxId := s.nextTxId,
            nextBountyId := s.nextBountyId, nextDownloadId := s.nextDownloadId }
          (uploadRewardTx u (mkReport s u fn fh fs)))
        (mkReport s u fn fh fs).propertyAddress = none := hnb
    rw [hnb2]
    rfl

/-- C10 witness: the upload of the file named 123_Main.pdf on the empty
database creates the report row whose address is the derived string
"123 Main". -/
theorem C10_address_derived_from_filename_witness :
    mkReport initialState "u" "123_Main.pdf" "hten" 5
      ∈ (uploadReport initialState "u" "123_Main.pdf" "hten" 5 false).1.reports
    ∧ (mkReport initialState "u" "123_Main.pdf" "hten" 5).propertyAddress
        = deriveAddress "123_Main.pdf" :=
  C10_address_derived_from_filename.1 initialState "u" "123_Main.pdf" "hten" 5 (by decide)

/-- The open bounty of user bob for the address 123 Main St, staked at 5. -/
def mainStBounty : Bounty :=
  { id := 1, userId := "bob", propertyAddress := "123 Main St", stakedCredits := 5,
    status := "open", fulfilledByUserId := none, fulfilledReportId := none }

/-- The database holding only that open bounty. -/
def mainStState : DBState :=
  { reports := [], creditTransactions := [], bounties := [mainStBounty], downloads := [],
    nextReportId := 1, nextTxId := 1, nextBountyId := 2, nextDownloadId := 1 }

/-- C4 counterexample: the matching is not symmetric.  User carol uploads a
report whose derived address is "123 Main St Apt 2"; the requested address
"123 Main St" appears within it, yet the query matches only when the
requested address contains the report address, so the bounty stays open,
none of its fulfillment fields is set, and carol earns only the
UPLOAD_REWARD of 10 — not 10 plus the 5-credit stake. -/
theorem C4_counterexample_no_symmetric_match :
    (uploadReport mainStState "carol" "123_Main_St_Apt_2.pdf" "hc4" 100 false).1.bounties
      = [mainStBounty]
    ∧ getCreditBalance
        (uploadReport mainStState "carol" "123_Main_St_Apt_2.pdf" "hc4" 100 false).1
        "carol" = 10 := by
  refine ⟨by decide, by decide⟩

/-- C4 as amended: matching is one-directional.  An upload whose derived
address is ILIKE-contained in the requested address of the first open bounty
found (and whose uploader is not the requester) marks that bounty fulfilled
and raises the uploader balance by UPLOAD_REWARD plus the staked amount. -/
theorem C4_amended_one_directional_matching (s : DBState) (u fn fh : String) (fs : Nat)
    (b : Bounty)
    (h0 : getReportByHash s fh = none)
    (hb : getBountyByAddress s (deriveAddress fn) = some b)
    (hne : b.userId ≠ u) :
    b.status = "open"
    ∧ ilike b.propertyAddress (deriveAddress fn) = true
    ∧ (uploadReport s u fn fh fs false).2 = UploadResult.ok s.nextReportId
    ∧ { b with
        status := "fulfilled", fulfilledByUserId := some u,
        fulfilledReportId := some s.nextReportId }
        ∈ (uploadReport s u fn fh fs false).1.bounties
    ∧ getCreditBalance (uploadReport s u fn fh fs false).1 u
        = getCreditBalance s u + UPLOAD_REWARD + b.stakedCredits := by
  have hpred := List.find?_some hb
  have hmem : b ∈ s.bounties := List.mem_of_find?_eq_some hb
  rw [Bool.and_eq_true, beq_iff_eq] at hpred
  obtain ⟨hstat, hilike⟩ := hpred
  have hb2 : getBountyByAddress
      (insertTx
        { reports := mkReport s u fn fh fs :: s.reports,
          creditTransactions := s.creditTransactions,
          bounties := s.bounties, downloads := s.downloads,
          nextReportId := s.nextReportId + 1, nextTxId := s.nextTxId,
          nextBountyId := s.nextBountyId, nextDownloadId := s.nextDownloadId }
        (uploadRewardTx u (mkReport s u fn fh fs)))
      (mkReport s u fn fh fs).propertyAddress = some b := hb
  unfold uploadReport
  rw [h0, if_neg (show ¬(false = true) by decide)]
  dsimp only
  unfold uploadBountyCheck
  rw [hb2]
  dsimp only
  rw [if_pos hne]
  refine ⟨hstat, hilike, rfl, ?_, ?_⟩
  · refine List.mem_map.mpr ⟨b, hmem, ?_⟩
    simp [mkReport]
  · rw [getCreditBalance_insertTx]
    have h1 : getCreditBalance
        (fulfillBounty
          (insertTx
            { reports := mkReport s u fn fh fs :: s.reports,
              creditTransactions := s.creditTransactions,
              bounties := s.bounties, downloads := s.downloads,
              nextReportId := s.nextReportId + 1, nextTxId := s.nextTxId,
              nextBountyId := s.nextBountyId, nextDownloadId := s.nextDownloadId }
            (uploadRewardTx u (mkReport s u fn fh fs)))
          b.id u (mkReport s u fn fh fs).id) u
        = getCreditBalance
          (insertTx
            { reports := mkReport s u fn fh fs :: s.reports,
              creditTransactions := s.creditTransactions,
              bounties := s.bounties, downloads := s.downloads,
              nextReportId := s.nextReportId + 1, nextTxId := s.nextTxId,
              nextBountyId := s.nextBountyId, nextDownloadId := s.nextDownloadId }
            (uploadRewardTx u (mkReport s u fn fh fs))) u := rfl
    rw [h1, getCreditBalance_insertTx]
    have h2 : getCreditBalance
        { reports := mkReport s u fn fh fs :: s.reports,
          creditTransactions := s.creditTransactions,
          bounties := s.bounties, downloads := s.downloads,
          nextReportId := s.nextReportId + 1, nextTxId := s.nextTxId,
          nextBountyId := s.nextBountyId, nextDownloadId := s.nextDownloadId } u
        = getCreditBalance s u := rfl
    rw [h2]
    simp [bountyEarnedTx, uploadRewardTx]
    omega

/-- C4 witness: user carol uploads 123_Main.pdf, whose derived address
"123 Main" is contained in the requested address "123 Main St" of the open
bounty of bob; the bounty is fulfilled and carol ends with 10 + 5 = 15
credits. -/
theorem C4_amended_one_directional_matching_witness :
    mainStBounty.status = "open"
    ∧ ilike mainStBounty.propertyAddress (deriveAddress "123_Main.pdf") = true
    ∧ (uploadReport mainStState "carol" "123_Main.pdf" "hc4b" 100 false).2
        = UploadResult.ok mainStState.nextReportId
    ∧ { mainStBounty with
        status := "fulfilled", fulfilledByUserId := some "carol",
        fulfilledReportId := some mainStState.nextReportId }
        ∈ (uploadReport mainStState "carol" "123_Main.pdf" "hc4b" 100 false).1.bounties
    ∧ getCreditBalance (uploadReport mainStState "carol" "123_Main.pdf" "hc4b" 100 false).1
        "carol"
        = getCreditBalance mainStState "carol" + UPLOAD_REWARD + mainStBounty.stakedCredits :=
  C4_amended_one_directional_matching mainStState "carol" "123_Main.pdf" "hc4b" 100
    mainStBounty (by decide) (by decide) (by decide)

/-- A database whose only bounty is already cancelled. -/
def cancelledBountyState : DBState :=
  { reports := [], creditTransactions := [], downloads := [],
    bounties := [{ id := 1, userId := "bob", propertyAddress := "9 Pine Rd",
                   stakedCredits := 8, status := "cancelled",
                   fulfilledByUserId := none, fulfilledReportId := none }],
    nextReportId := 1, nextTxId := 1, nextBountyId := 2, nextDownloadId := 1 }

/-- C3 counterexample: DatabaseStorage.fulfillBounty performs no status
check and does not fail — applied to a cancelled bounty it overwrites
status, fulfilledByUserId and fulfilledReportId. -/
theorem C3_counterexample_fulfill_overwrites_cancelled :
    (fulfillBounty cancelledBountyState 1 "carol" 7).bounties
      = [{ id := 1, userId := "bob", propertyAddress := "9 Pine Rd",
           stakedCredits := 8, status := "fulfilled",
           fulfilledByUserId := some "carol", fulfilledReportId := some 7 }] := by
  decide

/-- C3 as amended: the status guard lives in the callers, not in
fulfillBounty.  In any state with pairwise-distinct bounty ids, a bounty
whose status is not open survives every route action unchanged, and no
route action appends a bounty_earned ledger row for it. -/
theorem C3_amended_nonopen_bounty_immutable (s : DBState) (b : Bounty) (a : Action)
    (hids : (s.bounties.map (fun x => x.id)).Nodup)
    (hb : b ∈ s.bounties) (hstat : b.status ≠ "open") :
    b ∈ (step s a).bounties
    ∧ ∀ tx ∈ (step s a).creditTransactions,
        tx.type = "bounty_earned" → tx.bountyId = some b.id →
        tx ∈ s.creditTransactions := by
  cases a with
  | upload u fn fh fs flt =>
    simp only [step]
    unfold uploadReport
    split
    · exact ⟨hb, fun tx htx _ _ => htx⟩
    · dsimp only
      split
      · exact ⟨hb, fun tx htx _ _ => htx⟩
      · unfold uploadBountyCheck
        split
        next mb heq =>
          have hmb : mb ∈ s.bounties := List.mem_of_find?_eq_some heq
          have hmbpred := List.find?_some heq
          rw [Bool.and_eq_true, beq_iff_eq] at hmbpred
          split
          · have hne_id : b.id ≠ mb.id := by
              intro h
              exact hstat (by rw [List.inj_on_of_nodup_map hids hb hmb h]; exact hmbpred.1)
            have hgb : (if b.id == mb.id then
                { b with status := "fulfilled", fulfilledByUserId := some u,
                         fulfilledReportId := some (mkReport s u fn fh fs).id }
              else b) = b := by
              rw [if_neg (by simp [hne_id])]
            constructor
            · rw [insertTx_bounties]
              exact List.mem_map.mpr ⟨b, hb, hgb⟩
            · intro tx htx h1 h2
              have s1 := no_new_earned_cons _ _ b.id
                (by
                  rintro ⟨-, h4⟩
                  simp only [bountyEarnedTx, Option.some.injEq] at h4
                  exact hne_id h4.symm)
                tx htx h1 h2
              exact no_new_earned_cons _ _ b.id (by rintro ⟨h3, -⟩; simp only [uploadRewardTx, downloadDebitTx, bountyStakeTx, bountyRefundTx] at h3; exact absurd h3 (by decide))
                tx s1 h1 h2
          · constructor
            · exact hb
            · intro tx htx h1 h2
              exact no_new_earned_cons _ _ b.id
                (by rintro ⟨h3, -⟩; simp only [uploadRewardTx, downloadDebitTx, bountyStakeTx, bountyRefundTx] at h3; exact absurd h3 (by decide)) tx htx h1 h2
        · constructor
          · exact hb
          · intro tx htx h1 h2
            exact no_new_earned_cons _ _ b.id
              (by rintro ⟨h3, -⟩; simp only [uploadRewardTx, downloadDebitTx, bountyStakeTx, bountyRefundTx] at h3; exact absurd h3 (by decide)) tx htx h1 h2
  | download u rid =>
    simp only [step]
    unfold downloadReport
    split
    · exact ⟨hb, fun tx htx _ _ => htx⟩
    · split
      · exact ⟨hb, fun tx htx _ _ => htx⟩
      · split
        · exact ⟨hb, fun tx htx _ _ => htx⟩
        · split
          · exact ⟨hb, fun tx htx _ _ => htx⟩
          · dsimp only
            constructor
            · exact hb
            · intro tx htx h1 h2
              exact no_new_earned_cons _ _ b.id
                (by rintro ⟨h3, -⟩; simp only [uploadRewardTx, downloadDebitTx, bountyStakeTx, bountyRefundTx] at h3; exact absurd h3 (by decide)) tx htx h1 h2
  | createBounty u addr req =>
    simp only [step]
    unfold createBountyRoute
    split
    · exact ⟨hb, fun tx htx _ _ => htx⟩
    · split
      · exact ⟨hb, fun tx htx _ _ => htx⟩
      · dsimp only
        split
        · exact ⟨hb, fun tx htx _ _ => htx⟩
        · constructor
          · exact List.mem_cons_of_mem _ hb
          · intro tx htx h1 h2
            exact no_new_earned_cons _ _ b.id
              (by rintro ⟨h3, -⟩; simp only [uploadRewardTx, downloadDebitTx, bountyStakeTx, bountyRefundTx] at h3; exact absurd h3 (by decide)) tx htx h1 h2
  | cancelBounty u bid =>
    simp only [step]
    unfold cancelBountyRoute
    split
    · exact ⟨hb, fun tx htx _ _ => htx⟩
    next b2 heq =>
      have hb2mem : b2 ∈ s.bounties := List.mem_of_find?_eq_some heq
      have hb2pred := List.find?_some heq
      rw [beq_iff_eq] at hb2pred
      split
      · exact ⟨hb, fun tx htx _ _ => htx⟩
      · split
        · exact ⟨hb, fun tx htx _ _ => htx⟩
        next hopen =>
          have hb2open : b2.status = "open" := not_ne_iff.mp hopen
          have hne_id : b.id ≠ bid := by
            intro h
            have : b = b2 :=
              List.inj_on_of_nodup_map hids hb hb2mem (by rw [h, hb2pred])
            exact hstat (by rw [this]; exact hb2open)
          constructor
          · rw [insertTx_bounties]
            refine List.mem_map.mpr ⟨b, hb, ?_⟩
            rw [if_neg (by simp [hne_id])]
          · intro tx htx h1 h2
            exact no_new_earned_cons _ _ b.id
              (by rintro ⟨h3, -⟩; simp only [uploadRewardTx, downloadDebitTx, bountyStakeTx, bountyRefundTx] at h3; exact absurd h3 (by decide)) tx htx h1 h2
  | deleteReport u rid =>
    simp only [step]
    unfold deleteReportRoute
    split
    · exact ⟨hb, fun tx htx _ _ => htx⟩
    · split
      · exact ⟨hb, fun tx htx _ _ => htx⟩
      · exact ⟨hb, fun tx htx _ _ => htx⟩
  | signupBonus u =>
    simp only [step]
    unfold signupBonusRoute
    split
    · exact ⟨hb, fun tx htx _ _ => htx⟩
    · constructor
      · exact hb
      · intro tx htx h1 h2
        exact no_new_earned_cons _ _ b.id
          (by rintro ⟨h3, -⟩; simp only [uploadRewardTx, downloadDebitTx, bountyStakeTx, bountyRefundTx] at h3; exact absurd h3 (by decide)) tx htx h1 h2

/-- A duplicate hash short-circuits the upload handler before any write. -/
theorem uploadReport_duplicate (s : DBState) (u fn fh : String) (fs : Nat) (flt : Bool)
    (r : Report) (h : getReportByHash s fh = some r) :
    uploadReport s u fn fh fs flt = (s, UploadResult.duplicate) := by
  unfold uploadReport
  rw [h]

/-- A fault-free upload of a fresh hash puts exactly the new report row in
front of the old rows. -/
theorem uploadReport_ok_reports (s : DBState) (u fn fh : String) (fs : Nat)
    (h0 : getReportByHash s fh = none) :
    (uploadReport s u fn fh fs false).1.reports = mkReport s u fn fh fs :: s.reports := by
  unfold uploadReport
  rw [h0, if_neg (show ¬(false = true) by decide)]
  dsimp only
  rw [uploadBountyCheck_reports]
  rfl

/-- The bounty-fulfillment step adds no upload-typed ledger row: filtering
for upload rows of any report id is unchanged by it. -/
theorem uploadBountyCheck_filter_upload (s : DBState) (u : String) (r : Report)
    (rid : Nat) :
    ((uploadBountyCheck s u r).creditTransactions.filter
        (fun t => t.type == "upload" && t.reportId == some rid))
      = s.creditTransactions.filter
          (fun t => t.type == "upload" && t.reportId == some rid) := by
  unfold uploadBountyCheck
  split
  · split
    · rw [insertTx_creditTransactions, fulfillBounty_creditTransactions, List.filter_cons,
        if_neg (by
          simp only [bountyEarnedTx, Bool.and_eq_true, beq_iff_eq]
          rintro ⟨h3, -⟩
          exact absurd h3 (by decide))]
    · rfl
  · rfl

/-- C5.  Content-hash deduplication, sequentially: in any state with no
report row for the hash and no stale upload row for the next report id, a
first upload of that hash succeeds, a second upload of the same hash (by any
user, any filename) fails with the duplicate error and changes nothing, and
the final state holds exactly one report row with that hash and exactly one
upload-reward ledger row for it. -/
theorem C5_content_hash_dedup (s : DBState) (u1 u2 fn1 fn2 fh : String) (fs1 fs2 : Nat)
    (h0 : getReportByHash s fh = none)
    (hfresh : ∀ tx ∈ s.creditTransactions,
        ¬(tx.type = "upload" ∧ tx.reportId = some s.nextReportId)) :
    (uploadReport s u1 fn1 fh fs1 false).2 = UploadResult.ok s.nextReportId
    ∧ uploadReport (uploadReport s u1 fn1 fh fs1 false).1 u2 fn2 fh fs2 false
        = ((uploadReport s u1 fn1 fh fs1 false).1, UploadResult.duplicate)
    ∧ ((uploadReport s u1 fn1 fh fs1 false).1.reports.filter
        (fun r => r.fileHash == fh)).length = 1
    ∧ ((uploadReport s u1 fn1 fh fs1 false).1.creditTransactions.filter
        (fun t => t.type == "upload" && t.reportId == some s.nextReportId)).length = 1 := by
  have hrep := uploadReport_ok_reports s u1 fn1 fh fs1 h0
  have hdup2 : getReportByHash (uploadReport s u1 fn1 fh fs1 false).1 fh
      = some (mkReport s u1 fn1 fh fs1) := by
    unfold getReportByHash
    rw [hrep, List.find?_cons_of_pos _ (by simp [mkReport])]
  refine ⟨?_, uploadReport_duplicate _ u2 fn2 fh fs2 false _ hdup2, ?_, ?_⟩
  · unfold uploadReport
    rw [h0, if_neg (show ¬(false = true) by decide)]
    rfl
  · rw [hrep, List.filter_cons, if_pos (by simp [mkReport]),
      List.filter_eq_nil_iff.mpr (by
        intro r hr hcontra
        rw [beq_iff_eq] at hcontra
        exact (List.find?_eq_none.mp h0 r hr) (by rw [beq_iff_eq]; exact hcontra))]
    rfl
  · conv_lhs =>
      rw [show (uploadReport s u1 fn1 fh fs1 false).1
          = uploadBountyCheck
              (insertTx
                { reports := mkReport s u1 fn1 fh fs1 :: s.reports,
                  creditTransactions := s.creditTransactions,
                  bounties := s.bounties, downloads := s.downloads,
                  nextReportId := s.nextReportId + 1, nextTxId := s.nextTxId,
                  nextBountyId := s.nextBountyId, nextDownloadId := s.nextDownloadId }
                (uploadRewardTx u1 (mkReport s u1 fn1 fh fs1)))
              u1 (mkReport s u1 fn1 fh fs1) from by
        unfold uploadReport
        rw [h0, if_neg (show ¬(false = true) by decide)]]
    rw [uploadBountyCheck_filter_upload, insertTx_creditTransactions, List.filter_cons,
      if_pos (by simp [uploadRewardTx, mkReport]),
      List.filter_eq_nil_iff.mpr (by
        intro tx htx hcontra
        rw [Bool.and_eq_true, beq_iff_eq, beq_iff_eq] at hcontra
        exact hfresh tx htx ⟨hcontra.1, hcontra.2⟩)]
    rfl

/-- C5 witness: two uploads of the same digest on the empty database — the
first succeeds as report 1, the second is rejected as a duplicate, and one
report row and one upload-reward row remain. -/
theorem C5_content_hash_dedup_witness :
    (uploadReport initialState "alice" "a.pdf" "samehash" 7 false).2
        = UploadResult.ok initialState.nextReportId
    ∧ uploadReport (uploadReport initialState "alice" "a.pdf" "samehash" 7 false).1
        "bella" "b.pdf" "samehash" 9 false
        = ((uploadReport initialState "alice" "a.pdf" "samehash" 7 false).1,
           UploadResult.duplicate)
    ∧ ((uploadReport initialState "alice" "a.pdf" "samehash" 7 false).1.reports.filter
        (fun r => r.fileHash == "samehash")).length = 1
    ∧ ((uploadReport initialState "alice" "a.pdf" "samehash" 7
          false).1.creditTransactions.filter
        (fun t => t.type == "upload"
          && t.reportId == some initialState.nextReportId)).length = 1 :=
  C5_content_hash_dedup initialState "alice" "bella" "a.pdf" "b.pdf" "samehash" 7 9
    (by decide) (by decide)

/-- Inserting a ledger row does not touch the downloads table. -/
theorem insertTx_downloads (s : DBState) (t : TxInput) :
    (insertTx s t).downloads = s.downloads := rfl

/-- Incrementing a download count does not touch the downloads table. -/
theorem incrementDownloadCount_downloads (s : DBState) (id : Nat) :
    (incrementDownloadCount s id).downloads = s.downloads := rfl

/-- Fulfilling a bounty maps the bounties table row-wise. -/
theorem fulfillBounty_bounties (s : DBState) (id : Nat) (fb : String) (rid : Nat) :
    (fulfillBounty s id fb rid).bounties
      = s.bounties.map (fun b =>
          if b.id == id then
            { b with status := "fulfilled", fulfilledByUserId := some fb,
                     fulfilledReportId := some rid }
          else b) := rfl

/-- Cancelling a bounty maps the bounties table row-wise. -/
theorem cancelBounty_bounties (s : DBState) (id : Nat) :
    (cancelBounty s id).bounties
      = s.bounties.map (fun b =>
          if b.id == id then { b with status := "cancelled" } else b) := rfl

/-- The download handler never touches the bounties table. -/
theorem downloadReport_bounties (s : DBState) (u : String) (rid : Nat) :
    (downloadReport s u rid).1.bounties = s.bounties := by
  unfold downloadReport
  split
  · rfl
  · split
    · rfl
    · split
      · rfl
      · split
        · rfl
        · rfl

/-- At most one downloads row per user and report pair. -/
def downloadsUnique (s : DBState) : Prop :=
  s.downloads.Pairwise (fun d1 d2 => ¬(d1.userId = d2.userId ∧ d1.reportId = d2.reportId))

/-- Serving any request preserves the pairwise uniqueness of the downloads
table: only the download route inserts a row, and only after
hasUserDownloaded returned false for the pair. -/
theorem downloadsUnique_step (s : DBState) (a : Action) (h : downloadsUnique s) :
    downloadsUnique (step s a) := by
  cases a with
  | upload u fn fh fs flt =>
    simp only [step]
    unfold downloadsUnique
    rw [uploadReport_downloads]
    exact h
  | download u rid =>
    simp only [step]
    unfold downloadsUnique at h ⊢
    unfold downloadReport
    split
    · exact h
    · split
      · exact h
      · split
        next hnd => exact h
        next hnd =>
          split
          · exact h
          · dsimp only
            rw [incrementDownloadCount_downloads, insertTx_downloads]
            refine List.pairwise_cons.mpr ⟨?_, h⟩
            intro d hd hcontra
            obtain ⟨h1, h2⟩ := hcontra
            refine hnd ?_
            unfold hasUserDownloaded
            rw [List.any_eq_true]
            refine ⟨d, hd, ?_⟩
            rw [Bool.and_eq_true, beq_iff_eq, beq_iff_eq]
            exact ⟨h1.symm, h2.symm⟩
  | createBounty u addr req =>
    simp only [step]
    unfold downloadsUnique
    rw [createBountyRoute_downloads]
    exact h
  | cancelBounty u bid =>
    simp only [step]
    unfold downloadsUnique
    rw [cancelBountyRoute_downloads]
    exact h
  | deleteReport u rid =>
    simp only [step]
    unfold downloadsUnique
    rw [deleteReportRoute_downloads]
    exact h
  | signupBonus u =>
    simp only [step]
    unfold downloadsUnique
    rw [signupBonusRoute_downloads]
    exact h

/-- C7.  Idempotent re-download: a request by the owner of the report, or by
a user who already holds a download row for the pair, answers success and
returns the state completely unchanged — no download row, no debit, no
balance change, no count change; and in every reachable state the downloads
table holds at most one row per user and report pair. -/
theorem C7_idempotent_redownload :
    (∀ (s : DBState) (u : String) (rid : Nat) (r : Report),
        getReport s rid = some r → r.userId = u →
        downloadReport s u rid = (s, DownloadResult.ownsReport))
    ∧ (∀ (s : DBState) (u : String) (rid : Nat) (r : Report),
        getReport s rid = some r → r.userId ≠ u → hasUserDownloaded s u rid = true →
        downloadReport s u rid = (s, DownloadResult.alreadyDownloaded))
    ∧ (∀ s : DBState, Reachable s → downloadsUnique s) := by
  refine ⟨?_, ?_, ?_⟩
  · intro s u rid r hr hu
    unfold downloadReport
    rw [hr]
    simp [hu]
  · intro s u rid r hr hu hd
    unfold downloadReport
    rw [hr]
    simp [hu, hd]
  · intro s hs
    induction hs with
    | init => exact List.Pairwise.nil
    | next s a _ ih => exact downloadsUnique_step s a ih

/-- The database holding one report owned by alice and one download row of
dana for it. -/
def aliceReportState : DBState :=
  { reports := [{ id := 1, userId := "alice", propertyAddress := "2 B St",
                  fileHash := "h7", fileName := "2_B_St.pdf", fileSize := 3,
                  downloadCount := 1, isPublic := true }],
    creditTransactions := [],
    bounties := [],
    downloads := [{ id := 1, userId := "dana", reportId := 1, creditSpent := 5 }],
    nextReportId := 2, nextTxId := 1, nextBountyId := 1, nextDownloadId := 2 }

/-- C7 witness: the owner short-circuit and the already-downloaded
short-circuit, both leaving the concrete state untouched. -/
theorem C7_idempotent_redownload_witness :
    downloadReport aliceReportState "alice" 1
      = (aliceReportState, DownloadResult.ownsReport)
    ∧ downloadReport aliceReportState "dana" 1
      = (aliceReportState, DownloadResult.alreadyDownloaded) :=
  ⟨C7_idempotent_redownload.1 aliceReportState "alice" 1
      { id := 1, userId := "alice", propertyAddress := "2 B St",
        fileHash := "h7", fileName := "2_B_St.pdf", fileSize := 3,
        downloadCount := 1, isPublic := true } (by decide) (by decide),
   C7_idempotent_redownload.2.1 aliceReportState "dana" 1
      { id := 1, userId := "alice", propertyAddress := "2 B St",
        fileHash := "h7", fileName := "2_B_St.pdf", fileSize := 3,
        downloadCount := 1, isPublic := true } (by decide) (by decide) (by decide)⟩

/-- Looking a bounty up by id commutes with an id-preserving row map. -/
theorem find_id_map (l : List Bounty) (g : Bounty → Bounty)
    (hg : ∀ b, (g b).id = b.id) (bid : Nat) :
    (l.map g).find? (fun b => b.id == bid) = (l.find? (fun b => b.id == bid)).map g := by
  induction l with
  | nil => rfl
  | cons a t ih =>
    rw [List.map_cons]
    by_cases hcase : (a.id == bid) = true
    · have h1 : List.find? (fun b => b.id == bid) (g a :: List.map g t) = some (g a) :=
        List.find?_cons_of_pos _ (by rw [hg a]; exact hcase)
      have h2 : List.find? (fun b => b.id == bid) (a :: t) = some a :=
        List.find?_cons_of_pos _ hcase
      rw [h1, h2]
      rfl
    · have h1 : List.find? (fun b => b.id == bid) (g a :: List.map g t)
          = List.find? (fun b => b.id == bid) (List.map g t) :=
        List.find?_cons_of_neg _ (by rw [hg a]; exact hcase)
      have h2 : List.find? (fun b => b.id == bid) (a :: t)
          = List.find? (fun b => b.id == bid) t :=
        List.find?_cons_of_neg _ hcase
      rw [h1, h2, ih]

/-- Cancelling a bounty that is not open fails and changes nothing. -/
theorem cancelBountyRoute_notOpen (s : DBState) (u : String) (bid : Nat) (b : Bounty)
    (hb : getBounty s bid = some b) (hu : b.userId = u) (hno : b.status ≠ "open") :
    cancelBountyRoute s u bid = (s, CancelBountyResult.notOpen) := by
  unfold cancelBountyRoute
  rw [hb]
  dsimp only
  rw [if_neg (by simp [hu]), if_pos hno]

/-- C8.  Cancelling an own open bounty marks it cancelled and appends
exactly one refund row of +stakedCredits for the requester, raising their
balance by the stake; a second cancel of the same bounty answers the
not-open error and changes nothing further, and a cancel by any other user
answers the not-authorized error and changes nothing. -/
theorem C8_bounty_cancellation (s : DBState) (u : String) (bid : Nat) (b : Bounty)
    (hb : getBounty s bid = some b) (hu : b.userId = u) (hopen : b.status = "open") :
    (cancelBountyRoute s u bid).2 = CancelBountyResult.ok
    ∧ (cancelBountyRoute s u bid).1.bounties
        = s.bounties.map (fun x =>
            if x.id == bid then { x with status := "cancelled" } else x)
    ∧ (cancelBountyRoute s u bid).1.creditTransactions
        = { id := s.nextTxId, userId := u, amount := b.stakedCredits,
            type := "bounty_stake",
            description := "Refund for cancelled bounty: " ++ b.propertyAddress,
            reportId := none, bountyId := some b.id } :: s.creditTransactions
    ∧ getCreditBalance (cancelBountyRoute s u bid).1 u
        = getCreditBalance s u + b.stakedCredits
    ∧ cancelBountyRoute (cancelBountyRoute s u bid).1 u bid
        = ((cancelBountyRoute s u bid).1, CancelBountyResult.notOpen)
    ∧ (∀ u2 : String, u2 ≠ b.userId →
        cancelBountyRoute s u2 bid = (s, CancelBountyResult.notAuthorized)) := by
  have hpred0 :=
    List.find?_some (show s.bounties.find? (fun x => x.id == bid) = some b from hb)
  have hpred : (b.id == bid) = true := hpred0
  have hred : cancelBountyRoute s u bid
      = (insertTx (cancelBounty s bid) (bountyRefundTx u b), CancelBountyResult.ok) := by
    unfold cancelBountyRoute
    rw [hb]
    dsimp only
    rw [if_neg (by simp [hu]), if_neg (by simp [hopen])]
  have hb2 : getBounty (cancelBountyRoute s u bid).1 bid
      = some { b with status := "cancelled" } := by
    rw [hred]
    show ((cancelBounty s bid).bounties.find? (fun x => x.id == bid)) = _
    rw [cancelBounty_bounties,
      find_id_map _ _ (fun x => by split <;> rfl) bid]
    rw [show s.bounties.find? (fun x => x.id == bid) = some b from hb]
    show some (if (b.id == bid) = true then { b with status := "cancelled" } else b) = _
    rw [if_pos hpred]
  refine ⟨by rw [hred], by rw [hred]; rfl, by rw [hred]; rfl, ?_, ?_, ?_⟩
  · rw [hred]
    show getCreditBalance (insertTx (cancelBounty s bid) (bountyRefundTx u b)) u = _
    rw [getCreditBalance_insertTx]
    have hsame : getCreditBalance (cancelBounty s bid) u = getCreditBalance s u := rfl
    rw [hsame]
    simp [bountyRefundTx]
    omega
  · exact cancelBountyRoute_notOpen _ u bid _ hb2 hu
      (show ¬(("cancelled" : String) = "open") by decide)
  · intro u2 hu2
    unfold cancelBountyRoute
    rw [hb]
    dsimp only
    rw [if_pos (Ne.symm hu2)]

/-- The database where erin holds 12 credits and her bounty 1 is open with a
stake of 8. -/
def erinBountyState : DBState :=
  { reports := [],
    creditTransactions := [{ id := 1, userId := "erin", amount := 12,
                             type := "signup_bonus", description := "w",
                             reportId := none, bountyId := none }],
    bounties := [{ id := 1, userId := "erin", propertyAddress := "4 Oak Ct",
                   stakedCredits := 8, status := "open",
                   fulfilledByUserId := none, fulfilledReportId := none }],
    downloads := [],
    nextReportId := 1, nextTxId := 2, nextBountyId := 2, nextDownloadId := 1 }

/-- C8 witness: erin cancels her open bounty staked at 8 while holding 12
credits — her balance rises to 20 — and a second cancel answers the
not-open error without further change. -/
theorem C8_bounty_cancellation_witness :
    (cancelBountyRoute erinBountyState "erin" 1).2 = CancelBountyResult.ok
    ∧ getCreditBalance (cancelBountyRoute erinBountyState "erin" 1).1 "erin"
        = getCreditBalance erinBountyState "erin" + 8
    ∧ cancelBountyRoute (cancelBountyRoute erinBountyState "erin" 1).1 "erin" 1
        = ((cancelBountyRoute erinBountyState "erin" 1).1, CancelBountyResult.notOpen) :=
  ⟨(C8_bounty_cancellation erinBountyState "erin" 1
      { id := 1, userId := "erin", propertyAddress := "4 Oak Ct", stakedCredits := 8,
        status := "open", fulfilledByUserId := none, fulfilledReportId := none }
      (by decide) (by decide) (by decide)).1,
   (C8_bounty_cancellation erinBountyState "erin" 1
      { id := 1, userId := "erin", propertyAddress := "4 Oak Ct", stakedCredits := 8,
        status := "open", fulfilledByUserId := none, fulfilledReportId := none }
      (by decide) (by decide) (by decide)).2.2.2.1,
   (C8_bounty_cancellation erinBountyState "erin" 1
      { id := 1, userId := "erin", propertyAddress := "4 Oak Ct", stakedCredits := 8,
        status := "open", fulfilledByUserId := none, fulfilledReportId := none }
      (by decide) (by decide) (by decide)).2.2.2.2.1⟩

/-- The delete-report handler never touches the bounties table. -/
theorem deleteReportRoute_bounties (s : DBState) (u : String) (rid : Nat) :
    (deleteReportRoute s u rid).1.bounties = s.bounties := by
  unfold deleteReportRoute
  split
  · rfl
  · split <;> rfl

/-- Serving any request keeps every bounty row at or above the minimum
stake: bounty rows are only created by the create-bounty route, whose stake
is clamped, and the fulfill and cancel updates never change stakedCredits. -/
theorem bountyStakesOk_step (s : DBState) (a : Action)
    (h : ∀ b ∈ s.bounties, MIN_BOUNTY_STAKE ≤ b.stakedCredits) :
    ∀ b ∈ (step s a).bounties, MIN_BOUNTY_STAKE ≤ b.stakedCredits := by
  cases a with
  | upload u fn fh fs flt =>
    simp only [step]
    unfold uploadReport
    split
    · exact h
    · dsimp only
      split
      · exact h
      · unfold uploadBountyCheck
        split
        · split
          · intro b2 hb2
            rw [insertTx_bounties, fulfillBounty_bounties] at hb2
            obtain ⟨b1, hb1, rfl⟩ := List.mem_map.mp hb2
            have hle : MIN_BOUNTY_STAKE ≤ b1.stakedCredits := h b1 hb1
            split
            · exact hle
            · exact hle
          · exact h
        · exact h
  | download u rid =>
    simp only [step]
    intro b2 hb2
    rw [downloadReport_bounties] at hb2
    exact h b2 hb2
  | createBounty u addr req =>
    simp only [step]
    unfold createBountyRoute
    split
    · exact h
    · split
      · exact h
      · dsimp only
        split
        · exact h
        · intro b2 hb2
          rw [insertTx_bounties] at hb2
          rcases List.mem_cons.mp hb2 with rfl | hmem
          · exact le_max_left _ _
          · exact h b2 hmem
  | cancelBounty u bid =>
    simp only [step]
    unfold cancelBountyRoute
    split
    · exact h
    · split
      · exact h
      · split
        · exact h
        · intro b2 hb2
          rw [insertTx_bounties, cancelBounty_bounties] at hb2
          obtain ⟨b1, hb1, rfl⟩ := List.mem_map.mp hb2
          have hle : MIN_BOUNTY_STAKE ≤ b1.stakedCredits := h b1 hb1
          split
          · exact hle
          · exact hle
  | deleteReport u rid =>
    simp only [step]
    intro b2 hb2
    rw [deleteReportRoute_bounties] at hb2
    exact h b2 hb2
  | signupBonus u =>
    simp only [step]
    unfold signupBonusRoute
    split
    · exact h
    · intro b2 hb2
      rw [insertTx_bounties] at hb2
      exact h b2 hb2

/-- C9.  Stake clamping: the create-bounty route never rejects a too-small
stake — the stake used is max(MIN_BOUNTY_STAKE, requested), a missing or
zero request standing for MIN_BOUNTY_STAKE; with a balance below the clamped
stake the request fails leaving the state unchanged, on success the new
bounty carries exactly the clamped stake and the single new ledger row
debits exactly that amount; and in every reachable state every bounty row
has stakedCredits at least MIN_BOUNTY_STAKE. -/
theorem C9_stake_clamping :
    (∀ (s : DBState) (u addr : String) (req : Option Int), addr ≠ "" →
      (getCreditBalance s u < clampStake req →
        createBountyRoute s u (some addr) req = (s, CreateBountyResult.insufficientCredits))
      ∧ (¬ getCreditBalance s u < clampStake req →
        (createBountyRoute s u (some addr) req).1.bounties
          = { id := s.nextBountyId, userId := u, propertyAddress := addr,
              stakedCredits := clampStake req, status := "open",
              fulfilledByUserId := none, fulfilledReportId := none } :: s.bounties
        ∧ (createBountyRoute s u (some addr) req).1.creditTransactions
          = { id := s.nextTxId, userId := u, amount := -(clampStake req),
              type := "bounty_stake",
              description := "Staked for bounty: " ++ addr,
              reportId := none, bountyId := some s.nextBountyId } :: s.creditTransactions))
    ∧ (∀ req : Option Int, MIN_BOUNTY_STAKE ≤ clampStake req)
    ∧ (∀ s : DBState, Reachable s →
        ∀ b ∈ s.bounties, MIN_BOUNTY_STAKE ≤ b.stakedCredits) := by
  refine ⟨?_, fun req => le_max_left _ _, ?_⟩
  · intro s u addr req haddr
    constructor
    · intro hlt
      unfold createBountyRoute
      dsimp only
      rw [if_neg haddr, if_pos hlt]
    · intro hge
      unfold createBountyRoute
      dsimp only
      rw [if_neg haddr, if_neg hge]
      exact ⟨rfl, rfl⟩
  · intro s hs
    induction hs with
    | init => intro b hb; exact absurd hb (List.not_mem_nil b)
    | next s a _ ih => exact bountyStakesOk_step s a ih

/-- C9 witness: on the empty database a request staking 2 clamps to the
minimum 5, which the balance of 0 cannot cover, so the request fails with
insufficient credits and the state is unchanged. -/
theorem C9_stake_clamping_witness :
    createBountyRoute initialState "erin" (some "5 Elm Way") (some 2)
      = (initialState, CreateBountyResult.insufficientCredits) :=
  (C9_stake_clamping.1 initialState "erin" "5 Elm Way" (some 2)
    (by decide)).1 (by decide)

/-- C3 witness: in the database holding only the cancelled bounty of bob, an
upload by carol whose derived address would even match the cancelled address
leaves the bounty untouched and appends no bounty_earned row. -/
theorem C3_amended_nonopen_bounty_immutable_witness :
    { id := 1, userId := "bob", propertyAddress := "9 Pine Rd", stakedCredits := 8,
      status := ("cancelled" : String), fulfilledByUserId := (none : Option String),
      fulfilledReportId := (none : Option Nat) }
      ∈ (step cancelledBountyState
          (Action.upload "carol" "9_Pine_Rd.pdf" "hc3" 10 false)).bounties :=
  (C3_amended_nonopen_bounty_immutable cancelledBountyState _
    (Action.upload "carol" "9_Pine_Rd.pdf" "hc3" 10 false)
    (by decide) (by decide) (by decide)).1

end Inspectly
